import Mathlib

/-!
Shallow embedding of `src/backend/routers/announcements.py`, the announcements
router of the school management service: one persisted collection of
announcement documents, one teacher directory used as an authentication gate,
and six HTTP handlers (`get_active_announcements`, `get_all_announcements`,
`create_announcement`, `update_announcement`, `delete_announcement`,
`toggle_announcement_status`).

Modelling conventions:
- A MongoDB document becomes the structure `Announcement`; the field `active`
  may be absent on legacy documents, hence `Option Bool`; the field
  `start_date` conflates BSON null and an absent field into `none` (the
  router itself queries with a filter matching both).
- The store identifier (BSON ObjectId) is modelled by its canonical 24-digit
  lowercase hexadecimal string form; `bson.ObjectId(s)` accepts exactly the
  24-digit hex strings, case insensitively, and we canonicalise to lowercase.
- Python `datetime.fromisoformat` is an external library; it is modelled by
  an oracle `fromiso : String -> Bool` stating which strings parse. Every
  theorem quantifies over the oracle.
- Python string operations that the router uses are re-implemented over the
  character list of the string so that the kernel can evaluate them:
  `replace("Z", "+00:00")`, `strip()`, and the lexicographic string
  comparison used by MongoDB query operators and sorts.
- `datetime.now().isoformat()` becomes an explicit `now : String` parameter,
  and the ObjectId that the driver assigns on insert becomes `newId`.
- Handlers that can raise HTTPException return `Except Err a`; mutating
  handlers return the resulting store as well, so that atomicity claims can
  state the store is unchanged. Read handlers perform no writes, which the
  embedding reflects by their type.
- A thrown driver exception in the fetch of the public endpoint is modelled
  by the boolean `storeFails` of `get_active_announcements`; the source
  catches it and returns the empty list.
-/

instance {ε α : Type} [DecidableEq ε] [DecidableEq α] : DecidableEq (Except ε α) :=
  fun a b =>
    match a, b with
    | .ok x, .ok y =>
      if h : x = y then .isTrue (by rw [h]) else .isFalse (by simp [h])
    | .ok _, .error _ => .isFalse (by simp)
    | .error _, .ok _ => .isFalse (by simp)
    | .error x, .error y =>
      if h : x = y then .isTrue (by rw [h]) else .isFalse (by simp [h])

/-- Errors the router maps to HTTP status codes: 401, 400, 404, 500. -/
inductive Err where
  | unauthorized : Err
  | invalidInput : String → Err
  | notFound : Err
  | internalError : Err
deriving Repr, DecidableEq

/-- One document of the announcements collection. -/
structure Announcement where
  oid : String
  message : String
  start_date : Option String
  end_date : String
  created_by : String
  created_at : String
  active : Option Bool
deriving Repr, DecidableEq

/-- The persisted state the router reads and writes: the announcements
collection and the set of teacher usernames in the teachers collection. -/
structure Store where
  announcements : List Announcement
  teachers : List String
deriving Repr, DecidableEq

/-- Python `s.replace("Z", "+00:00")`: every occurrence of the one-character
pattern is replaced, which is exactly a character-wise substitution. -/
def replaceZ (s : String) : String :=
  ⟨s.data.foldr
    (fun c acc => if c = 'Z' then '+' :: '0' :: '0' :: ':' :: '0' :: '0' :: acc else c :: acc)
    []⟩

/-- Whitespace stripped by Python `str.strip()` (ASCII subset). -/
def isStripped (c : Char) : Bool :=
  c = ' ' || c = '\t' || c = '\n' || c = '\r' || c = '\x0b' || c = '\x0c'

/-- Python `s.strip()`: drop leading and trailing whitespace. -/
def pyStrip (s : String) : String :=
  ⟨((s.data.dropWhile isStripped).reverse.dropWhile isStripped).reverse⟩

/-- Lexicographic comparison of character lists by code point, the order
MongoDB uses for its string comparisons in queries and sorts. -/
def lexLe : List Char → List Char → Bool
  | [], _ => true
  | _ :: _, [] => false
  | a :: as, b :: bs => if a < b then true else if a = b then lexLe as bs else false

/-- MongoDB string comparison, as a boolean on Lean strings. -/
def strLe (a b : String) : Bool :=
  lexLe a.data b.data

/-- Hexadecimal digit test for ObjectId validation. -/
def isHexDigit (c : Char) : Bool :=
  c.isDigit || ('a' ≤ c && c ≤ 'f') || ('A' ≤ c && c ≤ 'F')

/-- Whether `bson.ObjectId(s)` succeeds on a string argument: exactly the
24-character hexadecimal strings are accepted. -/
def isValidObjectId (s : String) : Bool :=
  s.data.length = 24 && s.data.all isHexDigit

/-- Lowercase a hexadecimal character, for ObjectId canonicalisation. -/
def hexLower (c : Char) : Char :=
  if c = 'A' then 'a' else if c = 'B' then 'b' else if c = 'C' then 'c'
  else if c = 'D' then 'd' else if c = 'E' then 'e' else if c = 'F' then 'f' else c

/-- The canonical (lowercase) form of an ObjectId hex string; `str(ObjectId(s))`
returns this form, and two hex strings denote the same ObjectId iff their
canonical forms agree. -/
def oidCanon (s : String) : String :=
  ⟨s.data.map hexLower⟩

/-- The `try: obj_id = ObjectId(announcement_id) except: 400` step of the
mutating handlers: parse, yielding the canonical id used in the query. -/
def parseObjectId (s : String) : Option String :=
  if isValidObjectId s then some (oidCanon s) else none

/-- The date validation block shared by create and update:
`datetime.fromisoformat(end_date.replace('Z', '+00:00'))`, and the same for
`start_date` guarded by Python truthiness (`if start_date:`), so a `None` or
empty-string start date is not validated at all. -/
def validateDates (fromiso : String → Bool) (end_date : String)
    (start_date : Option String) : Bool :=
  fromiso (replaceZ end_date) &&
    (match start_date with
     | none => true
     | some s => if s = "" then true else fromiso (replaceZ s))

/-- The teachers-collection existence check
`teachers_collection.find_one({"_id": teacher_username})`. -/
def teacherExists (store : Store) (teacher_username : String) : Bool :=
  store.teachers.contains teacher_username

/-- The filter of the `/active` query: `active == True`, and (`start_date` is
null or absent, or `start_date <= now`), and `now <= end_date`, with string
comparison. -/
def isCurrentlyActive (now : String) (a : Announcement) : Bool :=
  a.active == some true &&
    (match a.start_date with
     | none => true
     | some s => strLe s now) &&
    strLe now a.end_date

/-- The sort order `.sort("created_at", -1)`: newest `created_at` first. -/
def createdAtDesc (a b : Announcement) : Prop :=
  strLe b.created_at a.created_at = true

instance : DecidableRel createdAtDesc := fun a b =>
  if h : strLe b.created_at a.created_at = true then .isTrue h else .isFalse h

/-- GET `/active` (`get_active_announcements`): fetch the documents matching
the active-window filter, newest first; any driver exception (`storeFails`)
is caught and the empty list returned instead. The handler performs no
writes. -/
def get_active_announcements (storeFails : Bool) (now : String) (store : Store) :
    Except Err (List Announcement) :=
  if storeFails then .ok []
  else .ok ((store.announcements.filter (isCurrentlyActive now)).insertionSort createdAtDesc)

/-- GET `/all` (`get_all_announcements`): requires the teacher to exist, then
returns every announcement sorted newest first. -/
def get_all_announcements (teacher_username : String) (store : Store) :
    Except Err (List Announcement) :=
  if !teacherExists store teacher_username then .error .unauthorized
  else .ok (store.announcements.insertionSort createdAtDesc)

/-- POST `/create` (`create_announcement`): auth check, date validation, then
insert of the new document; `newId` is the ObjectId the driver assigns and
`now` the value of `datetime.now().isoformat()`. Returns the created document
(whose id the source serialises as a string) and the new store. -/
def create_announcement (fromiso : String → Bool) (now newId : String)
    (message end_date teacher_username : String) (start_date : Option String)
    (store : Store) : Except Err Announcement × Store :=
  if !teacherExists store teacher_username then (.error .unauthorized, store)
  else if !validateDates fromiso end_date start_date then
    (.error (.invalidInput "Invalid date format"), store)
  else
    let doc : Announcement :=
      { oid := newId
        message := pyStrip message
        start_date := start_date
        end_date := end_date
        created_by := teacher_username
        created_at := now
        active := some true }
    (.ok doc, { store with announcements := store.announcements ++ [doc] })

/-- MongoDB `update_one({"_id": oid}, {"$set": ...})` over the collection in
insertion order: rewrite the first document whose id matches, returning the
matched count and the new collection. -/
def update_one (oid : String) (f : Announcement → Announcement) :
    List Announcement → Nat × List Announcement
  | [] => (0, [])
  | a :: rest =>
    if a.oid = oid then (1, f a :: rest)
    else
      let r := update_one oid f rest
      (r.1, a :: r.2)

/-- The `$set` document of the update handler: message stripped, dates and
active flag replaced, everything else untouched. -/
def setUpdateFields (message end_date : String) (start_date : Option String)
    (active : Bool) (a : Announcement) : Announcement :=
  { a with
    message := pyStrip message
    start_date := start_date
    end_date := end_date
    active := some active }

/-- PUT `/update/{id}` (`update_announcement`): auth check, ObjectId
validation, date validation, then `update_one` with the `$set` document;
`NotFound` when nothing matched. -/
def update_announcement (fromiso : String → Bool) (announcement_id : String)
    (message end_date teacher_username : String) (start_date : Option String)
    (active : Bool) (store : Store) : Except Err Unit × Store :=
  if !teacherExists store teacher_username then (.error .unauthorized, store)
  else
    match parseObjectId announcement_id with
    | none => (.error (.invalidInput "Invalid announcement ID"), store)
    | some oid =>
      if !validateDates fromiso end_date start_date then
        (.error (.invalidInput "Invalid date format"), store)
      else
        let r := update_one oid (setUpdateFields message end_date start_date active)
          store.announcements
        let store' : Store := { store with announcements := r.2 }
        if r.1 = 0 then (.error .notFound, store')
        else (.ok (), store')

/-- The HTTP layer of the update handler: the `active` parameter is declared
`active: bool = True`, so the framework substitutes `true` when the caller
omits it before the handler body runs. -/
def update_request (fromiso : String → Bool) (announcement_id : String)
    (message end_date teacher_username : String) (start_date : Option String)
    (active : Option Bool) (store : Store) : Except Err Unit × Store :=
  update_announcement fromiso announcement_id message end_date teacher_username
    start_date (active.getD true) store

/-- MongoDB `delete_one({"_id": oid})`: remove the first matching document,
returning the deleted count and the new collection. -/
def delete_one (oid : String) : List Announcement → Nat × List Announcement
  | [] => (0, [])
  | a :: rest =>
    if a.oid = oid then (1, rest)
    else
      let r := delete_one oid rest
      (r.1, a :: r.2)

/-- DELETE `/delete/{id}` (`delete_announcement`): auth check, ObjectId
validation, then `delete_one`; `NotFound` when nothing matched. -/
def delete_announcement (announcement_id teacher_username : String)
    (store : Store) : Except Err Unit × Store :=
  if !teacherExists store teacher_username then (.error .unauthorized, store)
  else
    match parseObjectId announcement_id with
    | none => (.error (.invalidInput "Invalid announcement ID"), store)
    | some oid =>
      let r := delete_one oid store.announcements
      let store' : Store := { store with announcements := r.2 }
      if r.1 = 0 then (.error .notFound, store')
      else (.ok (), store')

/-- PUT `/toggle/{id}` (`toggle_announcement_status`): auth check, ObjectId
validation, `find_one` of the current document (`NotFound` if absent), flip
of `announcement.get("active", True)`, then `update_one` setting the new
flag, returning it. -/
def toggle_announcement_status (announcement_id teacher_username : String)
    (store : Store) : Except Err Bool × Store :=
  if !teacherExists store teacher_username then (.error .unauthorized, store)
  else
    match parseObjectId announcement_id with
    | none => (.error (.invalidInput "Invalid announcement ID"), store)
    | some oid =>
      match store.announcements.find? (fun a => a.oid = oid) with
      | none => (.error .notFound, store)
      | some announcement =>
        let new_status := !(announcement.active.getD true)
        let r := update_one oid (fun a => { a with active := some new_status })
          store.announcements
        let store' : Store := { store with announcements := r.2 }
        if r.1 = 0 then (.error .notFound, store')
        else (.ok new_status, store')

/-! Order-theoretic facts about the embedded MongoDB string comparison, needed
to state that query results are sorted. -/

theorem lexLe_total (as : List Char) : ∀ bs, lexLe as bs = true ∨ lexLe bs as = true := by
  induction as with
  | nil => intro bs; exact Or.inl rfl
  | cons a as ih =>
    intro bs
    cases bs with
    | nil => exact Or.inr rfl
    | cons b bs =>
      rcases lt_trichotomy a b with h | h | h
      · exact Or.inl (by simp [lexLe, h])
      · subst h
        rcases ih bs with h' | h'
        · exact Or.inl (by simp [lexLe, lt_irrefl, h'])
        · exact Or.inr (by simp [lexLe, lt_irrefl, h'])
      · exact Or.inr (by simp [lexLe, h])

theorem lexLe_trans (as : List Char) :
    ∀ bs cs, lexLe as bs = true → lexLe bs cs = true → lexLe as cs = true := by
  induction as with
  | nil => intro bs cs _ _; rfl
  | cons a as ih =>
    intro bs cs h1 h2
    cases bs with
    | nil => simp [lexLe] at h1
    | cons b bs =>
      cases cs with
      | nil => simp [lexLe] at h2
      | cons c cs =>
        simp only [lexLe] at h1 h2 ⊢
        by_cases hab : a < b
        · by_cases hbc : b < c
          · simp [lt_trans hab hbc]
          · rw [if_neg hbc] at h2
            by_cases hbc' : b = c
            · subst hbc'; simp [hab]
            · simp [hbc'] at h2
        · rw [if_neg hab] at h1
          by_cases hab' : a = b
          · subst hab'
            rw [if_pos rfl] at h1
            by_cases hbc : a < c
            · simp [hbc]
            · rw [if_neg hbc] at h2
              by_cases hbc' : a = c
              · subst hbc'
                rw [if_pos rfl] at h2
                simp [lt_irrefl, ih bs cs h1 h2]
              · simp [hbc'] at h2
          · simp [hab'] at h1

theorem strLe_total (a b : String) : strLe a b = true ∨ strLe b a = true :=
  lexLe_total a.data b.data

theorem strLe_trans {a b c : String} (h1 : strLe a b = true) (h2 : strLe b c = true) :
    strLe a c = true :=
  lexLe_trans a.data b.data c.data h1 h2

instance : IsTotal Announcement createdAtDesc :=
  ⟨fun a b => strLe_total b.created_at a.created_at⟩

instance : IsTrans Announcement createdAtDesc :=
  ⟨fun _ _ _ h1 h2 => strLe_trans h2 h1⟩

/-! Facts about the embedded single-document collection operations. -/

theorem update_one_no_match (oid : String) (f : Announcement → Announcement) :
    ∀ l : List Announcement, (∀ a ∈ l, a.oid ≠ oid) → update_one oid f l = (0, l) := by
  intro l
  induction l with
  | nil => intro _; rfl
  | cons a rest ih =>
    intro h
    have ha : a.oid ≠ oid := h a (List.mem_cons_self a rest)
    have hrest := ih (fun x hx => h x (List.mem_cons_of_mem a hx))
    simp [update_one, ha, hrest]

theorem update_one_first_match (oid : String) (f : Announcement → Announcement)
    (pre : List Announcement) (r : Announcement) (post : List Announcement)
    (hpre : ∀ a ∈ pre, a.oid ≠ oid) (hr : r.oid = oid) :
    update_one oid f (pre ++ r :: post) = (1, pre ++ f r :: post) := by
  induction pre with
  | nil => simp [update_one, hr]
  | cons a rest ih =>
    have ha : a.oid ≠ oid := hpre a (List.mem_cons_self a rest)
    have := ih (fun x hx => hpre x (List.mem_cons_of_mem a hx))
    simp [update_one, ha, this]

theorem delete_one_no_match (oid : String) :
    ∀ l : List Announcement, (∀ a ∈ l, a.oid ≠ oid) → delete_one oid l = (0, l) := by
  intro l
  induction l with
  | nil => intro _; rfl
  | cons a rest ih =>
    intro h
    have ha : a.oid ≠ oid := h a (List.mem_cons_self a rest)
    have hrest := ih (fun x hx => h x (List.mem_cons_of_mem a hx))
    simp [delete_one, ha, hrest]

theorem delete_one_first_match (oid : String)
    (pre : List Announcement) (r : Announcement) (post : List Announcement)
    (hpre : ∀ a ∈ pre, a.oid ≠ oid) (hr : r.oid = oid) :
    delete_one oid (pre ++ r :: post) = (1, pre ++ post) := by
  induction pre with
  | nil => simp [delete_one, hr]
  | cons a rest ih =>
    have ha : a.oid ≠ oid := hpre a (List.mem_cons_self a rest)
    have := ih (fun x hx => hpre x (List.mem_cons_of_mem a hx))
    simp [delete_one, ha, this]

theorem find_first_match (oid : String)
    (pre : List Announcement) (r : Announcement) (post : List Announcement)
    (hpre : ∀ a ∈ pre, a.oid ≠ oid) (hr : r.oid = oid) :
    (pre ++ r :: post).find? (fun a => a.oid = oid) = some r := by
  induction pre with
  | nil => simp [List.find?, hr]
  | cons a rest ih =>
    have ha : a.oid ≠ oid := hpre a (List.mem_cons_self a rest)
    have := ih (fun x hx => hpre x (List.mem_cons_of_mem a hx))
    simp only [List.cons_append, List.find?]
    rw [decide_eq_false ha]
    exact this

/-- Unfolding of the active-window filter into its three conjuncts. -/
theorem isCurrentlyActive_iff (now : String) (a : Announcement) :
    isCurrentlyActive now a = true ↔
      a.active = some true ∧
      (a.start_date = none ∨ ∃ s, a.start_date = some s ∧ strLe s now = true) ∧
      strLe now a.end_date = true := by
  unfold isCurrentlyActive
  cases hsd : a.start_date with
  | none => simp
  | some s => simp [and_assoc]

/-- C1: for every store state and query instant `now`, the public listing
returns exactly the announcements with `active == true`, a `start_date` that
is absent (or null) or at most `now`, and an `end_date` at least `now`,
timestamps being compared as strings: the result is a permutation of the
filtered collection, and membership is characterised exactly. -/
theorem listActive_exactly_the_currently_active (store : Store) (now : String) :
    ∃ l, get_active_announcements false now store = .ok l ∧
      l.Perm (store.announcements.filter (isCurrentlyActive now)) ∧
      ∀ a, a ∈ l ↔
        a ∈ store.announcements ∧ a.active = some true ∧
        (a.start_date = none ∨ ∃ s, a.start_date = some s ∧ strLe s now = true) ∧
        strLe now a.end_date = true := by
  refine ⟨_, rfl, List.perm_insertionSort _ _, fun a => ?_⟩
  rw [List.mem_insertionSort, List.mem_filter, isCurrentlyActive_iff]

/-- C2: the public listing never produces an error response: for every store
state, query instant, and driver behaviour, it returns a normal list, and
when the driver fails the list is empty (the handler performs no writes, so
the store is unchanged). -/
theorem listActive_never_errors (storeFails : Bool) (now : String) (store : Store) :
    ∃ l, get_active_announcements storeFails now store = .ok l ∧
      (storeFails = true → l = []) := by
  cases storeFails with
  | true => exact ⟨[], rfl, fun _ => rfl⟩
  | false => exact ⟨_, rfl, fun h => (Bool.false_ne_true h).elim⟩

/-- C5: the management listing fails with Unauthorized exactly when the
teacher does not exist; otherwise it returns a permutation of the whole
collection (including inactive and expired records), sorted by `created_at`
descending. -/
theorem listAll_requires_teacher_and_sorts (teacher_username : String) (store : Store) :
    (teacherExists store teacher_username = false →
      get_all_announcements teacher_username store = .error .unauthorized) ∧
    (teacherExists store teacher_username = true →
      ∃ l, get_all_announcements teacher_username store = .ok l ∧
        l.Perm store.announcements ∧ List.Sorted createdAtDesc l) := by
  constructor
  · intro h
    simp [get_all_announcements, h]
  · intro h
    refine ⟨store.announcements.insertionSort createdAtDesc, ?_, ?_, ?_⟩
    · simp [get_all_announcements, h]
    · exact List.perm_insertionSort _ _
    · exact List.sorted_insertionSort _ _

/-- C3 counterexample: the claim fails as stated. With the teacher existing
and a parse oracle under which the empty string does not parse (as in Python,
where `datetime.fromisoformat("")` raises), a create call that supplies
`start_date = ""` is nevertheless accepted and persists a record, because the
source guards the start-date validation with Python truthiness
(`if start_date:`) and the empty string is falsy. -/
theorem create_with_empty_start_date_is_accepted :
    (fun s => s == "2099-01-01T00:00:00") (replaceZ "") = false ∧
    teacherExists { announcements := [], teachers := ["t1"] } "t1" = true ∧
    (create_announcement (fun s => s == "2099-01-01T00:00:00") "2025-01-01T00:00:00"
        "0123456789abcdef01234567" "Exam" "2099-01-01T00:00:00" "t1" (some "")
        { announcements := [], teachers := ["t1"] }).1.isOk = true ∧
    (create_announcement (fun s => s == "2099-01-01T00:00:00") "2025-01-01T00:00:00"
        "0123456789abcdef01234567" "Exam" "2099-01-01T00:00:00" "t1" (some "")
        { announcements := [], teachers := ["t1"] }).2.announcements.length = 1 := by
  decide

/-- C3 (amended): create is atomic on failure. A nonexistent teacher yields
Unauthorized with the store unchanged; with an existing teacher, when the
date validation block fails — the end date, or a given non-empty start date,
does not parse after normalising Z to +00:00 — create yields InvalidInput
"Invalid date format" with the store unchanged. -/
theorem create_failure_is_atomic (fromiso : String → Bool)
    (now newId message end_date teacher_username : String)
    (start_date : Option String) (store : Store) :
    (teacherExists store teacher_username = false →
      create_announcement fromiso now newId message end_date teacher_username
          start_date store = (.error .unauthorized, store)) ∧
    (teacherExists store teacher_username = true →
      validateDates fromiso end_date start_date = false →
      create_announcement fromiso now newId message end_date teacher_username
          start_date store = (.error (.invalidInput "Invalid date format"), store)) := by
  constructor
  · intro h
    simp [create_announcement, h]
  · intro h1 h2
    simp [create_announcement, h1, h2]

/-- C4: a successful create persists exactly one new record, whose message is
the input stripped of surrounding whitespace (an empty result is not
rejected), whose start date is the given one or null when absent, whose end
date is the given one, created_by the calling teacher, created_at the
call-time timestamp, active true; the returned record carries the
store-assigned id as a string. -/
theorem create_success_persists_record (fromiso : String → Bool)
    (now newId message end_date teacher_username : String)
    (start_date : Option String) (store : Store)
    (hT : teacherExists store teacher_username = true)
    (hD : validateDates fromiso end_date start_date = true) :
    create_announcement fromiso now newId message end_date teacher_username
        start_date store =
      (.ok { oid := newId
             message := pyStrip message
             start_date := start_date
             end_date := end_date
             created_by := teacher_username
             created_at := now
             active := some true },
       { store with
         announcements := store.announcements ++
           [{ oid := newId
              message := pyStrip message
              start_date := start_date
              end_date := end_date
              created_by := teacher_username
              created_at := now
              active := some true }] }) := by
  simp [create_announcement, hT, hD]

/-- Witness for C4: creating " Exam Friday " with a far-future end date and
no start date stores the trimmed message with active true. -/
theorem create_success_persists_record_witness :
    create_announcement (fun s => s == "2099-01-01T00:00:00") "2025-01-01T00:00:00"
        "0123456789abcdef01234567" " Exam Friday " "2099-01-01T00:00:00" "t1" none
        { announcements := [], teachers := ["t1"] } =
      (.ok { oid := "0123456789abcdef01234567"
             message := "Exam Friday"
             start_date := none
             end_date := "2099-01-01T00:00:00"
             created_by := "t1"
             created_at := "2025-01-01T00:00:00"
             active := some true },
       { announcements := [{ oid := "0123456789abcdef01234567"
                             message := "Exam Friday"
                             start_date := none
                             end_date := "2099-01-01T00:00:00"
                             created_by := "t1"
                             created_at := "2025-01-01T00:00:00"
                             active := some true }]
         teachers := ["t1"] }) :=
  create_success_persists_record (fun s => s == "2099-01-01T00:00:00")
    "2025-01-01T00:00:00" "0123456789abcdef01234567" " Exam Friday "
    "2099-01-01T00:00:00" "t1" none { announcements := [], teachers := ["t1"] }
    (by decide) (by decide)

/-- C6: a successful update on an existing record replaces its message (with
surrounding whitespace stripped), start date, end date, and active flag by
the given values, leaves its id, created_by and created_at untouched, and
leaves every other record in the store unchanged. The record is located as
the first match of the queried id, earlier records not matching. -/
theorem update_success_replaces_fields (fromiso : String → Bool)
    (announcement_id message end_date teacher_username oid : String)
    (start_date : Option String) (active : Bool) (store : Store)
    (pre post : List Announcement) (r : Announcement)
    (hT : teacherExists store teacher_username = true)
    (hP : parseObjectId announcement_id = some oid)
    (hD : validateDates fromiso end_date start_date = true)
    (hS : store.announcements = pre ++ r :: post)
    (hr : r.oid = oid)
    (hpre : ∀ x ∈ pre, x.oid ≠ oid) :
    update_announcement fromiso announcement_id message end_date teacher_username
        start_date active store =
      (.ok (), { store with
        announcements := pre ++
          { r with
            message := pyStrip message
            start_date := start_date
            end_date := end_date
            active := some active } :: post }) := by
  have hu := update_one_first_match oid
    (setUpdateFields message end_date start_date active) pre r post hpre hr
  simp [update_announcement, hT, hP, hD, hS, hu, setUpdateFields]

/-- Witness for C6: updating the one stored record replaces exactly the four
writable fields. -/
theorem update_success_replaces_fields_witness :
    update_announcement (fun s => s == "2098-01-01T00:00:00") "0123456789abcdef01234567"
        " New text " "2098-01-01T00:00:00" "t1" none false
        { announcements := [{ oid := "0123456789abcdef01234567"
                              message := "hi"
                              start_date := some "2024-01-01T00:00:00"
                              end_date := "2099-01-01T00:00:00"
                              created_by := "t0"
                              created_at := "2025-01-01T00:00:00"
                              active := some true }]
          teachers := ["t1"] } =
      (.ok (), { announcements := [{ oid := "0123456789abcdef01234567"
                                     message := "New text"
                                     start_date := none
                                     end_date := "2098-01-01T00:00:00"
                                     created_by := "t0"
                                     created_at := "2025-01-01T00:00:00"
                                     active := some false }]
                 teachers := ["t1"] }) :=
  update_success_replaces_fields (fun s => s == "2098-01-01T00:00:00")
    "0123456789abcdef01234567" " New text " "2098-01-01T00:00:00" "t1"
    "0123456789abcdef01234567" none false
    { announcements := [{ oid := "0123456789abcdef01234567"
                          message := "hi"
                          start_date := some "2024-01-01T00:00:00"
                          end_date := "2099-01-01T00:00:00"
                          created_by := "t0"
                          created_at := "2025-01-01T00:00:00"
                          active := some true }]
      teachers := ["t1"] }
    [] []
    { oid := "0123456789abcdef01234567"
      message := "hi"
      start_date := some "2024-01-01T00:00:00"
      end_date := "2099-01-01T00:00:00"
      created_by := "t0"
      created_at := "2025-01-01T00:00:00"
      active := some true }
    (by decide) (by decide) (by decide) (by decide) (by decide) (by simp)

/-- C7: the active parameter of the update endpoint is declared with default
true, so a call that omits it force-reactivates a deactivated record: after a
successful update of a record whose stored flag is false, with the caller
omitting active, the stored flag is true. -/
theorem update_omitting_active_reactivates (fromiso : String → Bool)
    (announcement_id message end_date teacher_username oid : String)
    (start_date : Option String) (store : Store)
    (pre post : List Announcement) (r : Announcement)
    (hT : teacherExists store teacher_username = true)
    (hP : parseObjectId announcement_id = some oid)
    (hD : validateDates fromiso end_date start_date = true)
    (hS : store.announcements = pre ++ r :: post)
    (hr : r.oid = oid)
    (hpre : ∀ x ∈ pre, x.oid ≠ oid)
    (hInactive : r.active = some false) :
    update_request fromiso announcement_id message end_date teacher_username
        start_date none store =
      (.ok (), { store with
        announcements := pre ++
          { r with
            message := pyStrip message
            start_date := start_date
            end_date := end_date
            active := some true } :: post }) := by
  have hu := update_one_first_match oid
    (setUpdateFields message end_date start_date true) pre r post hpre hr
  simp [update_request, update_announcement, hT, hP, hD, hS, hu, setUpdateFields]

/-- Witness for C7: an update omitting the active parameter turns a
deactivated record active again. -/
theorem update_omitting_active_reactivates_witness :
    update_request (fun s => s == "2098-01-01T00:00:00") "0123456789abcdef01234567"
        "text" "2098-01-01T00:00:00" "t1" none none
        { announcements := [{ oid := "0123456789abcdef01234567"
                              message := "hi"
                              start_date := none
                              end_date := "2099-01-01T00:00:00"
                              created_by := "t0"
                              created_at := "2025-01-01T00:00:00"
                              active := some false }]
          teachers := ["t1"] } =
      (.ok (), { announcements := [{ oid := "0123456789abcdef01234567"
                                     message := "text"
                                     start_date := none
                                     end_date := "2098-01-01T00:00:00"
                                     created_by := "t0"
                                     created_at := "2025-01-01T00:00:00"
                                     active := some true }]
                 teachers := ["t1"] }) :=
  update_omitting_active_reactivates (fun s => s == "2098-01-01T00:00:00")
    "0123456789abcdef01234567" "text" "2098-01-01T00:00:00" "t1"
    "0123456789abcdef01234567" none
    { announcements := [{ oid := "0123456789abcdef01234567"
                          message := "hi"
                          start_date := none
                          end_date := "2099-01-01T00:00:00"
                          created_by := "t0"
                          created_at := "2025-01-01T00:00:00"
                          active := some false }]
      teachers := ["t1"] }
    [] []
    { oid := "0123456789abcdef01234567"
      message := "hi"
      start_date := none
      end_date := "2099-01-01T00:00:00"
      created_by := "t0"
      created_at := "2025-01-01T00:00:00"
      active := some false }
    (by decide) (by decide) (by decide) (by decide) (by decide) (by simp) (by decide)

/-- C8: toggling an existing record stores and returns the negation of its
current flag, a missing flag being treated as true; toggling the same record
again returns the value the flag had before the first call and stores that
value. -/
theorem toggle_flips_and_double_toggle_restores
    (announcement_id teacher_username oid : String) (store : Store)
    (pre post : List Announcement) (r : Announcement)
    (hT : teacherExists store teacher_username = true)
    (hP : parseObjectId announcement_id = some oid)
    (hS : store.announcements = pre ++ r :: post)
    (hr : r.oid = oid)
    (hpre : ∀ x ∈ pre, x.oid ≠ oid) :
    toggle_announcement_status announcement_id teacher_username store =
      (.ok (!(r.active.getD true)),
       { store with announcements :=
           pre ++ { r with active := some (!(r.active.getD true)) } :: post }) ∧
    toggle_announcement_status announcement_id teacher_username
        { store with announcements :=
            pre ++ { r with active := some (!(r.active.getD true)) } :: post } =
      (.ok (r.active.getD true),
       { store with announcements :=
           pre ++ { r with active := some (r.active.getD true) } :: post }) := by
  constructor
  · have hfind := find_first_match oid pre r post hpre hr
    have hu := update_one_first_match oid
      (fun a => { a with active := some (!(r.active.getD true)) }) pre r post hpre hr
    simp [toggle_announcement_status, hT, hP, hS, hfind, hu]
  · have hr1 : ({ r with active := some (!(r.active.getD true)) } : Announcement).oid = oid := hr
    have hfind := find_first_match oid pre
      { r with active := some (!(r.active.getD true)) } post hpre hr1
    have hu := update_one_first_match oid
      (fun a => { a with active := some (r.active.getD true) }) pre
      { r with active := some (!(r.active.getD true)) } post hpre hr1
    have hT1 : teacherExists
        { store with announcements :=
            pre ++ { r with active := some (!(r.active.getD true)) } :: post }
        teacher_username = true := hT
    simp [toggle_announcement_status, hT1, hP, hfind, hu]

/-- Witness for C8: toggling a record that lacks the active field stores
false and returns false, and toggling again returns true. -/
theorem toggle_flips_and_double_toggle_restores_witness :
    toggle_announcement_status "0123456789abcdef01234567" "t1"
        { announcements := [{ oid := "0123456789abcdef01234567"
                              message := "hi"
                              start_date := none
                              end_date := "2099-01-01T00:00:00"
                              created_by := "t0"
                              created_at := "2025-01-01T00:00:00"
                              active := none }]
          teachers := ["t1"] } =
      (.ok false,
       { announcements := [{ oid := "0123456789abcdef01234567"
                             message := "hi"
                             start_date := none
                             end_date := "2099-01-01T00:00:00"
                             created_by := "t0"
                             created_at := "2025-01-01T00:00:00"
                             active := some false }]
         teachers := ["t1"] }) ∧
    toggle_announcement_status "0123456789abcdef01234567" "t1"
        { announcements := [{ oid := "0123456789abcdef01234567"
                              message := "hi"
                              start_date := none
                              end_date := "2099-01-01T00:00:00"
                              created_by := "t0"
                              created_at := "2025-01-01T00:00:00"
                              active := some false }]
          teachers := ["t1"] } =
      (.ok true,
       { announcements := [{ oid := "0123456789abcdef01234567"
                             message := "hi"
                             start_date := none
                             end_date := "2099-01-01T00:00:00"
                             created_by := "t0"
                             created_at := "2025-01-01T00:00:00"
                             active := some true }]
         teachers := ["t1"] }) :=
  toggle_flips_and_double_toggle_restores "0123456789abcdef01234567" "t1"
    "0123456789abcdef01234567"
    { announcements := [{ oid := "0123456789abcdef01234567"
                          message := "hi"
                          start_date := none
                          end_date := "2099-01-01T00:00:00"
                          created_by := "t0"
                          created_at := "2025-01-01T00:00:00"
                          active := none }]
      teachers := ["t1"] }
    [] []
    { oid := "0123456789abcdef01234567"
      message := "hi"
      start_date := none
      end_date := "2099-01-01T00:00:00"
      created_by := "t0"
      created_at := "2025-01-01T00:00:00"
      active := none }
    (by decide) (by decide) (by decide) (by decide) (by simp)

/-- C9 counterexample: the claim fails as stated for update. With the teacher
existing, a well-formed id, and an empty collection (so no record matches),
an update whose end date does not parse fails with InvalidInput "Invalid date
format", not NotFound: the date validation runs before the existence check. -/
theorem update_nonexistent_with_bad_date_is_invalid_input :
    teacherExists { announcements := [], teachers := ["t1"] } "t1" = true ∧
    isValidObjectId "0123456789abcdef01234567" = true ∧
    (fun s => s == "2099-01-01T00:00:00") (replaceZ "not-a-date") = false ∧
    update_announcement (fun s => s == "2099-01-01T00:00:00")
        "0123456789abcdef01234567" "msg" "not-a-date" "t1" none true
        { announcements := [], teachers := ["t1"] } =
      (.error (.invalidInput "Invalid date format"),
       { announcements := [], teachers := ["t1"] }) := by
  decide

/-- C9 (amended): for an authenticated call with a well-formed id matching no
record, update fails with NotFound provided its dates pass validation (an
unparseable date yields InvalidInput first), and delete fails with NotFound
unconditionally — in particular on an already-deleted id; in both cases the
store is unchanged. -/
theorem update_delete_missing_id_not_found (fromiso : String → Bool)
    (announcement_id message end_date teacher_username oid : String)
    (start_date : Option String) (active : Bool) (store : Store)
    (hT : teacherExists store teacher_username = true)
    (hP : parseObjectId announcement_id = some oid)
    (hNo : ∀ a ∈ store.announcements, a.oid ≠ oid) :
    (validateDates fromiso end_date start_date = true →
      update_announcement fromiso announcement_id message end_date teacher_username
          start_date active store = (.error .notFound, store)) ∧
    delete_announcement announcement_id teacher_username store =
      (.error .notFound, store) := by
  constructor
  · intro hD
    have hu := update_one_no_match oid
      (setUpdateFields message end_date start_date active) store.announcements hNo
    simp [update_announcement, hT, hP, hD, hu]
  · have hd := delete_one_no_match oid store.announcements hNo
    simp [delete_announcement, hT, hP, hd]

/-- Witness for C9 (amended): on an empty collection, update with a valid
date and delete both report NotFound and leave the store unchanged. -/
theorem update_delete_missing_id_not_found_witness :
    (validateDates (fun s => s == "2099-01-01T00:00:00") "2099-01-01T00:00:00" none = true →
      update_announcement (fun s => s == "2099-01-01T00:00:00")
          "0123456789abcdef01234567" "msg" "2099-01-01T00:00:00" "t1" none true
          { announcements := [], teachers := ["t1"] } =
        (.error .notFound, { announcements := [], teachers := ["t1"] })) ∧
    delete_announcement "0123456789abcdef01234567" "t1"
        { announcements := [], teachers := ["t1"] } =
      (.error .notFound, { announcements := [], teachers := ["t1"] }) :=
  update_delete_missing_id_not_found (fun s => s == "2099-01-01T00:00:00")
    "0123456789abcdef01234567" "msg" "2099-01-01T00:00:00" "t1"
    "0123456789abcdef01234567" none true
    { announcements := [], teachers := ["t1"] }
    (by decide) (by decide) (by simp)

/-- C10: in every mutating handler the teacher-existence check comes first —
with a nonexistent teacher the result is Unauthorized whatever the id, the
dates, or the store contents — and in update, delete and toggle a malformed
id yields InvalidInput "Invalid announcement ID" before any NotFound check,
whatever the store contents and dates. -/
theorem mutation_error_precedence (fromiso : String → Bool)
    (now newId announcement_id message end_date teacher_username : String)
    (start_date : Option String) (active : Bool) (store : Store) :
    (teacherExists store teacher_username = false →
      create_announcement fromiso now newId message end_date teacher_username
          start_date store = (.error .unauthorized, store) ∧
      update_announcement fromiso announcement_id message end_date teacher_username
          start_date active store = (.error .unauthorized, store) ∧
      delete_announcement announcement_id teacher_username store =
        (.error .unauthorized, store) ∧
      toggle_announcement_status announcement_id teacher_username store =
        (.error .unauthorized, store)) ∧
    (teacherExists store teacher_username = true →
      parseObjectId announcement_id = none →
      update_announcement fromiso announcement_id message end_date teacher_username
          start_date active store =
        (.error (.invalidInput "Invalid announcement ID"), store) ∧
      delete_announcement announcement_id teacher_username store =
        (.error (.invalidInput "Invalid announcement ID"), store) ∧
      toggle_announcement_status announcement_id teacher_username store =
        (.error (.invalidInput "Invalid announcement ID"), store)) := by
  constructor
  · intro h
    refine ⟨?_, ?_, ?_, ?_⟩ <;>
      simp [create_announcement, update_announcement, delete_announcement,
        toggle_announcement_status, h]
  · intro h1 h2
    refine ⟨?_, ?_, ?_⟩ <;>
      simp [update_announcement, delete_announcement,
        toggle_announcement_status, h1, h2]
